import Mathlib

/-!
Verification of the cursor-based pagination controller of the tracecat
front-end: the controller state machine, its navigation operations,
epoch-based stale-response suppression, the alerts list-view handlers
of `alert-table.tsx`, and the query-key derivation and response
adaptation of `useAlertsPagination`.
-/

namespace Pagination

/-- A page returned by the query adapter: exactly the fields of
`CursorPaginationResponse` built by `adaptedCasesListCases`
(`items`, `next_cursor`, `prev_cursor`, `has_more`, `has_previous`,
`total_estimate`). -/
structure Page (T : Type) where
  items : List T
  next_cursor : Option String
  prev_cursor : Option String
  has_more : Bool
  has_previous : Bool
  total_estimate : Nat
  deriving Repr, DecidableEq

/-- Modelled from the spec: the pagination state owned by the
`useCursorPagination` controller (the hook itself is imported by
`useAlertsPagination` but its file is not in the sources), §3 of the
spec: `cursorStack` (the first-page sentinel is `none`),
`currentCursor`, `limit`, `filters`, `requestEpoch`, plus the request
lifecycle fields of §5/§6: last-known-good `data`, the last
successfully applied response `lastPage`, the surfaced `error`, and
whether a fetch is in flight. -/
structure CtrlState (T F : Type) where
  cursorStack : List (Option String)
  currentCursor : Option String
  limit : Nat
  filters : F
  requestEpoch : Nat
  data : Option (List T)
  lastPage : Option (Page T)
  error : Option String
  inFlight : Bool
  deriving Repr, DecidableEq

variable {T F : Type}

/-- Modelled from the spec: `currentPage` is the 1-based page index,
equal to `cursorStack.length` (§3). -/
def currentPage (s : CtrlState T F) : Nat :=
  s.cursorStack.length

/-- Modelled from the spec: `hasNextPage` reflects `has_more` of the
last successfully applied response (§3/§4.1). -/
def hasNextPage (s : CtrlState T F) : Bool :=
  match s.lastPage with
  | some p => p.has_more
  | none => false

/-- Modelled from the spec: `hasPreviousPage` is true iff
`currentPage > 1` (§3 invariant). -/
def hasPreviousPage (s : CtrlState T F) : Bool :=
  decide (1 < currentPage s)

/-- Modelled from the spec: `totalEstimate` is passed through from the
latest successful response unmodified (§4.1). -/
def totalEstimate (s : CtrlState T F) : Option Nat :=
  s.lastPage.map Page.total_estimate

/-- Modelled from the spec: `startItem = (currentPage - 1) * limit + 1`
(§4.1 derived metadata). -/
def startItem (s : CtrlState T F) : Nat :=
  (currentPage s - 1) * s.limit + 1

/-- Modelled from the spec: `endItem = startItem + items.length - 1`
(§4.1 derived metadata), where the items are the displayed `data`. -/
def endItem (s : CtrlState T F) : Nat :=
  startItem s + (s.data.getD []).length - 1

/-- Modelled from the spec: the request-dedup cache key derived from
`(filters, limit, currentCursor)` for a fixed query identity (§4.1). -/
def cacheKey (s : CtrlState T F) : F × Nat × Option String :=
  (s.filters, s.limit, s.currentCursor)

/-- Modelled from the spec: `goToNextPage()` (§4.1). A no-op while a
navigation is in flight; otherwise, when `has_more` of the last
response holds, pushes that response's `next_cursor` onto
`cursorStack`, sets it as `currentCursor`, increments `requestEpoch`
and triggers a fetch; otherwise a no-op. -/
def goToNextPage (s : CtrlState T F) : CtrlState T F :=
  if s.inFlight then s
  else
    match s.lastPage with
    | some p =>
      if p.has_more then
        { s with
          cursorStack := p.next_cursor :: s.cursorStack
          currentCursor := p.next_cursor
          requestEpoch := s.requestEpoch + 1
          inFlight := true }
      else s
    | none => s

/-- Modelled from the spec: `goToPreviousPage()` (§4.1). When
`currentPage > 1`, pops the top of `cursorStack` and re-requests using
the cursor now at the top of the stack (client history, never the
server's `prev_cursor`), incrementing `requestEpoch`; otherwise a
no-op. -/
def goToPreviousPage (s : CtrlState T F) : CtrlState T F :=
  if 1 < s.cursorStack.length then
    { s with
      cursorStack := s.cursorStack.tail
      currentCursor := s.cursorStack.tail.headD none
      requestEpoch := s.requestEpoch + 1
      inFlight := true }
  else s

/-- Modelled from the spec: `goToFirstPage()` (§4.1) resets
`cursorStack` to `[firstPageSentinel]`, `currentCursor` to the
sentinel, increments `requestEpoch` and triggers a fetch. -/
def goToFirstPage (s : CtrlState T F) : CtrlState T F :=
  { s with
    cursorStack := [none]
    currentCursor := none
    requestEpoch := s.requestEpoch + 1
    inFlight := true }

/-- Modelled from the spec: mutating `filters` resets to the first
page (§3 invariant: any mutation of `filters` resets `cursorStack` to
`[firstPageSentinel]` and `currentCursor` to the sentinel). -/
def setFilters (f : F) (s : CtrlState T F) : CtrlState T F :=
  goToFirstPage { s with filters := f }

/-- Modelled from the spec: `setPageSize(n)` (§4.1/§7): page size 0 is
a programmer error that fails fast; otherwise equivalent to
`goToFirstPage()` plus updating `limit`. -/
def setPageSize (n : Nat) (s : CtrlState T F) : Except String (CtrlState T F) :=
  if n = 0 then Except.error "page size must be positive"
  else Except.ok (goToFirstPage { s with limit := n })

/-- Modelled from the spec: applying a resolved fetch (§5 ordering
guarantee). The result is applied only if its captured epoch equals
the controller's current epoch; otherwise it is silently discarded. -/
def applyResponse (e : Nat) (p : Page T) (s : CtrlState T F) : CtrlState T F :=
  if e = s.requestEpoch then
    { s with
      data := some p.items
      lastPage := some p
      error := none
      inFlight := false }
  else s

/-- Modelled from the spec: applying a failed fetch (§7 FetchError):
surfaced via `error` while `data` retains its last-known-good value;
no retry is issued. Stale failures are discarded by the epoch check. -/
def applyFetchError (e : Nat) (msg : String) (s : CtrlState T F) : CtrlState T F :=
  if e = s.requestEpoch then
    { s with
      error := some msg
      inFlight := false }
  else s

/-- Modelled from the spec: the state of a freshly mounted controller
(§3 lifecycle): first-page sentinel stack, epoch 0, initial fetch in
flight. -/
def initState (limit : Nat) (f : F) : CtrlState T F :=
  { cursorStack := [none]
    currentCursor := none
    limit := limit
    filters := f
    requestEpoch := 0
    data := none
    lastPage := none
    error := none
    inFlight := true }

/-- Modelled from the spec: the states a controller instance can reach
from mount through its own methods and response/error application
(§5: the single state owner is the controller instance itself). -/
inductive Reachable (T F : Type) (l0 : Nat) (f0 : F) : CtrlState T F → Prop
  | init : Reachable T F l0 f0 (initState l0 f0)
  | next {s : CtrlState T F} : Reachable T F l0 f0 s →
      Reachable T F l0 f0 (goToNextPage s)
  | prev {s : CtrlState T F} : Reachable T F l0 f0 s →
      Reachable T F l0 f0 (goToPreviousPage s)
  | first {s : CtrlState T F} : Reachable T F l0 f0 s →
      Reachable T F l0 f0 (goToFirstPage s)
  | filt {s : CtrlState T F} {f : F} : Reachable T F l0 f0 s →
      Reachable T F l0 f0 (setFilters f s)
  | size {s s1 : CtrlState T F} {n : Nat} : Reachable T F l0 f0 s →
      setPageSize n s = Except.ok s1 → Reachable T F l0 f0 s1
  | resp {s : CtrlState T F} {e : Nat} {p : Page T} : Reachable T F l0 f0 s →
      Reachable T F l0 f0 (applyResponse e p s)
  | ferr {s : CtrlState T F} {e : Nat} {m : String} : Reachable T F l0 f0 s →
      Reachable T F l0 f0 (applyFetchError e m s)

/-- One successful forward navigation: `goToNextPage` followed by the
resolution of the fetch it issued. -/
def nextStep (p : Page T) (s : CtrlState T F) : CtrlState T F :=
  applyResponse (goToNextPage s).requestEpoch p (goToNextPage s)

/-- A sequence of successful forward navigations, one response per
step. -/
def nextSteps : List (Page T) → CtrlState T F → CtrlState T F
  | [], s => s
  | p :: ps, s => nextSteps ps (nextStep p s)

/-- A sequence of backward navigations. -/
def prevSteps : Nat → CtrlState T F → CtrlState T F
  | 0, s => s
  | n + 1, s => prevSteps n (goToPreviousPage s)

/-- The parameter record passed to `alertsListAlerts` (the
`CasesListCasesData` of `useAlertsPagination` in the sources, with the
filter dimensions the hook overrides). -/
structure ListCasesParams where
  workspaceId : String
  cursor : Option String
  limit : Nat
  searchTerm : Option String
  status : Option String
  priority : Option String
  severity : Option String
  tags : Option (List String)
  deriving Repr, DecidableEq

/-- The spread `{...params, searchTerm, status, priority, severity,
tags}` performed by `adaptedCasesListCases`: the hook's captured
filters override the corresponding fields of `params`. -/
def mergeFilters (params : ListCasesParams)
    (searchTerm status priority severity : Option String)
    (tags : Option (List String)) : ListCasesParams :=
  { params with
    searchTerm := searchTerm
    status := status
    priority := priority
    severity := severity
    tags := tags }

/-- The wrapper built inside `useAlertsPagination`: calls
`alertsListAlerts` on the merged parameters and repackages the six
response fields into a `CursorPaginationResponse`. -/
def adaptedCasesListCases (alertsListAlerts : ListCasesParams → Page T)
    (searchTerm status priority severity : Option String)
    (tags : Option (List String)) (params : ListCasesParams) : Page T :=
  let response := alertsListAlerts
    (mergeFilters params searchTerm status priority severity tags)
  { items := response.items
    next_cursor := response.next_cursor
    prev_cursor := response.prev_cursor
    has_more := response.has_more
    has_previous := response.has_previous
    total_estimate := response.total_estimate }

/-- The tag sort performed in the query key of `useAlertsPagination`:
`[...tags].sort()`, the default lexicographic string sort. -/
def sortTags (ts : List String) : List String :=
  List.insertionSort (fun a b => a ≤ b) ts

/-- The tags component of the query key:
`tags ? [...tags].sort().join(",") : null`. A missing (`null` or
`undefined`) tags value contributes `null`. -/
def tagsKeyComponent (tags : Option (List String)) : Option String :=
  match tags with
  | some ts => some (String.intercalate "," (sortTags ts))
  | none => none

/-- The query key built by `useAlertsPagination`:
`["cases", "paginated", workspaceId, searchTerm ?? null, status ??
null, priority ?? null, severity ?? null, tags ? sorted-join : null]`.
Every component is a nullable string. -/
def alertsQueryKey (workspaceId : String)
    (searchTerm status priority severity : Option String)
    (tags : Option (List String)) : List (Option String) :=
  [some "cases", some "paginated", some workspaceId,
   searchTerm, status, priority, severity,
   tagsKeyComponent tags]

/-- The filter state owned by the `AlertTable` list view
(`alert-table.tsx`) together with the controller handle it drives. -/
structure AlertTableState (T F : Type) where
  searchTerm : String
  statusFilter : Option String
  priorityFilter : Option String
  severityFilter : Option String
  isDeleting : Bool
  ctrl : CtrlState T F
  deriving Repr, DecidableEq

/-- `handleSearchChange` of `alert-table.tsx`: stores the new search
term and calls `goToFirstPage()` when the value differs from the
current search term. -/
def handleSearchChange (value : String) (st : AlertTableState T F) :
    AlertTableState T F :=
  if value ≠ st.searchTerm then
    { st with searchTerm := value, ctrl := goToFirstPage st.ctrl }
  else
    { st with searchTerm := value }

/-- `handleStatusChange` of `alert-table.tsx`: stores the new status
filter and unconditionally calls `goToFirstPage()`. -/
def handleStatusChange (value : Option String) (st : AlertTableState T F) :
    AlertTableState T F :=
  { st with statusFilter := value, ctrl := goToFirstPage st.ctrl }

/-- `handlePriorityChange` of `alert-table.tsx`: stores the new
priority filter and unconditionally calls `goToFirstPage()`. -/
def handlePriorityChange (value : Option String) (st : AlertTableState T F) :
    AlertTableState T F :=
  { st with priorityFilter := value, ctrl := goToFirstPage st.ctrl }

/-- `handleSeverityChange` of `alert-table.tsx`: stores the new
severity filter and unconditionally calls `goToFirstPage()`. -/
def handleSeverityChange (value : Option String) (st : AlertTableState T F) :
    AlertTableState T F :=
  { st with severityFilter := value, ctrl := goToFirstPage st.ctrl }

/-- `handleDeleteRows` of `alert-table.tsx`: returns immediately on an
empty selection; otherwise issues one `deleteAlert` call per selected
row id (returned as the second component), shows a toast, and resets
`isDeleting`. The line after the deletions, commented
`Refresh the cases list`, contains no code: the pagination controller
is never touched. -/
def handleDeleteRows (selectedRows : List String) (st : AlertTableState T F) :
    AlertTableState T F × List String :=
  if selectedRows.isEmpty then (st, [])
  else ({ st with isDeleting := false }, selectedRows)

/-! ## Helper lemmas -/

theorem lastPage_of_hasNext (s : CtrlState T F) (hn : hasNextPage s = true) :
    ∃ p, s.lastPage = some p ∧ p.has_more = true := by
  cases hl : s.lastPage with
  | none => simp [hasNextPage, hl] at hn
  | some p =>
    refine ⟨p, rfl, ?_⟩
    simpa [hasNextPage, hl] using hn

theorem goToNextPage_eq (s : CtrlState T F) {p : Page T} (hf : s.inFlight = false)
    (hl : s.lastPage = some p) (hm : p.has_more = true) :
    goToNextPage s =
      { s with
        cursorStack := p.next_cursor :: s.cursorStack
        currentCursor := p.next_cursor
        requestEpoch := s.requestEpoch + 1
        inFlight := true } := by
  simp [goToNextPage, hf, hl, hm]

theorem applyResponse_stale (e : Nat) (p : Page T) (s : CtrlState T F)
    (he : e ≠ s.requestEpoch) : applyResponse e p s = s := by
  simp [applyResponse, he]

theorem applyFetchError_stale (e : Nat) (msg : String) (s : CtrlState T F)
    (he : e ≠ s.requestEpoch) : applyFetchError e msg s = s := by
  simp [applyFetchError, he]

/-! ## C5: invalid navigation is a state-preserving no-op -/

/-- C5: calling `goToNextPage()` when `hasNextPage` is false, or
`goToPreviousPage()` when `currentPage` equals 1, raises no error and
leaves the whole controller state unchanged. -/
theorem c5_invalid_navigation_noop (T F : Type) (s t : CtrlState T F)
    (hn : hasNextPage s = false) (hp : currentPage t = 1) :
    goToNextPage s = s ∧ goToPreviousPage t = t := by
  constructor
  · unfold goToNextPage
    split
    · rfl
    · cases hl : s.lastPage with
      | none => simp
      | some p =>
        have hm : p.has_more = false := by simpa [hasNextPage, hl] using hn
        simp [hm]
  · have h1 : ¬ 1 < t.cursorStack.length := by
      simp only [currentPage] at hp
      omega
    simp [goToPreviousPage, h1]

/-- C5 witness: a freshly mounted controller has no next page and is
on page 1, and both navigations leave it unchanged. -/
theorem c5_invalid_navigation_noop_witness :
    goToNextPage (initState 20 () : CtrlState Nat Unit) = initState 20 () ∧
    goToPreviousPage (initState 20 () : CtrlState Nat Unit) = initState 20 () :=
  c5_invalid_navigation_noop Nat Unit (initState 20 ()) (initState 20 ())
    (by decide) (by decide)

/-! ## C6: stale-while-error -/

/-- C6: when the adapter fails with a FetchError whose epoch matches,
the failure is surfaced via `error` while `data` retains its
last-known-good value; the epoch is not advanced and no new fetch is
put in flight (no automatic retry). -/
theorem c6_stale_while_error (T F : Type) (s : CtrlState T F) (e : Nat)
    (msg : String) (he : e = s.requestEpoch) :
    (applyFetchError e msg s).data = s.data ∧
    (applyFetchError e msg s).error = some msg ∧
    (applyFetchError e msg s).requestEpoch = s.requestEpoch ∧
    (applyFetchError e msg s).inFlight = false ∧
    (applyFetchError e msg s).lastPage = s.lastPage ∧
    (applyFetchError e msg s).cursorStack = s.cursorStack := by
  simp [applyFetchError, he]

/-- State used by the C6 witness: a controller holding previously
fetched data with a fetch in flight at epoch 1. -/
def c6State : CtrlState Nat Unit :=
  { cursorStack := [none]
    currentCursor := none
    limit := 20
    filters := ()
    requestEpoch := 1
    data := some [7, 8, 9]
    lastPage := none
    error := none
    inFlight := true }

/-- C6 witness: a failing fetch at the current epoch keeps the stale
data, surfaces the error, and issues no retry. -/
theorem c6_stale_while_error_witness :
    (applyFetchError 1 "network down" c6State).data = c6State.data ∧
    (applyFetchError 1 "network down" c6State).error = some "network down" ∧
    (applyFetchError 1 "network down" c6State).requestEpoch = c6State.requestEpoch ∧
    (applyFetchError 1 "network down" c6State).inFlight = false ∧
    (applyFetchError 1 "network down" c6State).lastPage = c6State.lastPage ∧
    (applyFetchError 1 "network down" c6State).cursorStack = c6State.cursorStack :=
  c6_stale_while_error Nat Unit c6State 1 "network down" (by decide)

/-! ## C8: adapter pass-through -/

/-- C8: the adapted query function of `useAlertsPagination` returns a
page whose six fields equal, unmodified, the `alertsListAlerts`
response for `params` merged with the hook's captured filters; and the
controller's `totalEstimate` is passed through from the latest
successful response without reconciliation. -/
theorem c8_adapter_pass_through (T F : Type)
    (alertsListAlerts : ListCasesParams → Page T)
    (searchTerm status priority severity : Option String)
    (tags : Option (List String)) (params : ListCasesParams)
    (e : Nat) (pg : Page T) (s : CtrlState T F) (he : e = s.requestEpoch) :
    adaptedCasesListCases alertsListAlerts searchTerm status priority severity
        tags params =
      alertsListAlerts
        (mergeFilters params searchTerm status priority severity tags) ∧
    totalEstimate (applyResponse e pg s) = some pg.total_estimate := by
  constructor
  · rfl
  · simp [applyResponse, totalEstimate, he]

/-- Response used by the C8 witness. -/
def c8Response : Page Nat :=
  { items := [1, 2, 3]
    next_cursor := some "n"
    prev_cursor := none
    has_more := true
    has_previous := false
    total_estimate := 55 }

/-- Params record used by the C8 witness. -/
def c8Params : ListCasesParams :=
  { workspaceId := "w1"
    cursor := some "c"
    limit := 20
    searchTerm := none
    status := none
    priority := none
    severity := none
    tags := none }

/-- C8 witness: the adapter is a pass-through on a concrete response
and the total estimate of a freshly applied response wins. -/
theorem c8_adapter_pass_through_witness :
    adaptedCasesListCases (fun _ => c8Response) (some "vpn") (some "open")
        none none (some ["t1"]) c8Params =
      (fun _ => c8Response)
        (mergeFilters c8Params (some "vpn") (some "open") none none
          (some ["t1"])) ∧
    totalEstimate (applyResponse 0 c8Response (initState 20 () : CtrlState Nat Unit)) =
      some c8Response.total_estimate :=
  c8_adapter_pass_through Nat Unit (fun _ => c8Response) (some "vpn")
    (some "open") none none (some ["t1"]) c8Params 0 c8Response
    (initState 20 ()) (by decide)

/-! ## C9: re-fetch after batch mutation -/

/-- C9 evaluation: `handleDeleteRows` leaves the pagination controller
completely untouched — in particular its `requestEpoch` and
`cursorStack` — so no re-fetch of the current pagination query is
triggered after the deletions complete. -/
theorem c9_delete_rows_no_refetch (T F : Type)
    (selectedRows : List String) (st : AlertTableState T F) :
    (handleDeleteRows selectedRows st).1.ctrl = st.ctrl ∧
    (handleDeleteRows selectedRows st).1.ctrl.requestEpoch = st.ctrl.requestEpoch := by
  unfold handleDeleteRows
  split
  · exact ⟨rfl, rfl⟩
  · exact ⟨rfl, rfl⟩

/-! ## C10: tag-order insensitivity of the query key -/

/-- C10: two `useAlertsPagination` query keys that differ only in the
order of the tags array are identical, and a missing tags value
contributes the null key component. -/
theorem c10_query_key_tag_order_insensitive
    (w : String) (st s p sv : Option String) (ts ts2 : List String)
    (hperm : ts.Perm ts2) :
    alertsQueryKey w st s p sv (some ts) =
      alertsQueryKey w st s p sv (some ts2) ∧
    tagsKeyComponent none = none := by
  refine ⟨?_, rfl⟩
  have hsort : sortTags ts = sortTags ts2 :=
    List.eq_of_perm_of_sorted
      ((List.perm_insertionSort _ ts).trans
        (hperm.trans (List.perm_insertionSort _ ts2).symm))
      (List.sorted_insertionSort _ ts) (List.sorted_insertionSort _ ts2)
  simp [alertsQueryKey, tagsKeyComponent, hsort]

/-- C10 witness: the key for tags `["b", "a"]` equals the key for tags
`["a", "b"]`. -/
theorem c10_query_key_tag_order_insensitive_witness :
    alertsQueryKey "w1" none none none none (some ["b", "a"]) =
      alertsQueryKey "w1" none none none none (some ["a", "b"]) ∧
    tagsKeyComponent none = none :=
  c10_query_key_tag_order_insensitive "w1" none none none none
    ["b", "a"] ["a", "b"] (by decide)

/-! ## C3: reset on filter / page-size change -/

/-- C3: mutating the filters or the page size resets `cursorStack` to
`[firstPageSentinel]` and `currentCursor` to the sentinel (so
`currentPage` becomes 1), and the list-view handlers of
`alert-table.tsx` invoke `goToFirstPage()` whenever a filter value or
the search term changes. -/
theorem c3_reset_on_filter_or_limit_change (T F : Type)
    (f : F) (n : Nat) (s u : CtrlState T F) (v : String)
    (st st2 st3 st4 : AlertTableState T F) (w x y : Option String)
    (hn : n ≠ 0) (hv : v ≠ st.searchTerm) :
    (setFilters f s).cursorStack = [none] ∧
    (setFilters f s).currentCursor = none ∧
    currentPage (setFilters f s) = 1 ∧
    setPageSize n u = Except.ok (goToFirstPage { u with limit := n }) ∧
    (goToFirstPage { u with limit := n }).cursorStack = [none] ∧
    (goToFirstPage { u with limit := n }).currentCursor = none ∧
    currentPage (goToFirstPage { u with limit := n }) = 1 ∧
    (handleSearchChange v st).ctrl = goToFirstPage st.ctrl ∧
    (handleStatusChange w st2).ctrl = goToFirstPage st2.ctrl ∧
    (handlePriorityChange x st3).ctrl = goToFirstPage st3.ctrl ∧
    (handleSeverityChange y st4).ctrl = goToFirstPage st4.ctrl := by
  refine ⟨rfl, rfl, rfl, ?_, rfl, rfl, rfl, ?_, rfl, rfl, rfl⟩
  · simp [setPageSize, hn]
  · simp [handleSearchChange, hv]

/-- List-view state used by the C3 witness. -/
def c3TableState : AlertTableState Nat Unit :=
  { searchTerm := ""
    statusFilter := none
    priorityFilter := none
    severityFilter := none
    isDeleting := false
    ctrl := initState 20 () }

/-- C3 witness: concrete filter, page-size, search and handler changes
all reset to the first page. -/
theorem c3_reset_on_filter_or_limit_change_witness :
    (setFilters () (initState 20 () : CtrlState Nat Unit)).cursorStack = [none] ∧
    (setFilters () (initState 20 () : CtrlState Nat Unit)).currentCursor = none ∧
    currentPage (setFilters () (initState 20 () : CtrlState Nat Unit)) = 1 ∧
    setPageSize 50 (initState 20 () : CtrlState Nat Unit) =
      Except.ok (goToFirstPage { (initState 20 () : CtrlState Nat Unit) with limit := 50 }) ∧
    (goToFirstPage { (initState 20 () : CtrlState Nat Unit) with limit := 50 }).cursorStack = [none] ∧
    (goToFirstPage { (initState 20 () : CtrlState Nat Unit) with limit := 50 }).currentCursor = none ∧
    currentPage (goToFirstPage { (initState 20 () : CtrlState Nat Unit) with limit := 50 }) = 1 ∧
    (handleSearchChange "phishing" c3TableState).ctrl = goToFirstPage c3TableState.ctrl ∧
    (handleStatusChange (some "open") c3TableState).ctrl = goToFirstPage c3TableState.ctrl ∧
    (handlePriorityChange (some "high") c3TableState).ctrl = goToFirstPage c3TableState.ctrl ∧
    (handleSeverityChange (some "low") c3TableState).ctrl = goToFirstPage c3TableState.ctrl :=
  c3_reset_on_filter_or_limit_change Nat Unit () 50 (initState 20 ())
    (initState 20 ()) "phishing" c3TableState c3TableState c3TableState
    c3TableState (some "open") (some "high") (some "low")
    (by decide) (by decide)

/-! ## C1: stale-response suppression -/

/-- C1: a resolved fetch (or fetch failure) whose captured epoch
differs from the controller's current epoch is never applied to
state; in particular, after `goToNextPage()` (epoch E1) immediately
followed by `goToFirstPage()` (epoch E2), applying the E1 response
after the E2 response leaves the displayed data equal to the E2
result. -/
theorem c1_stale_response_suppression (T F : Type)
    (s t : CtrlState T F) (p1 p2 q : Page T) (e : Nat) (msg : String)
    (hf : s.inFlight = false) (hn : hasNextPage s = true)
    (he : e ≠ t.requestEpoch) :
    applyResponse e q t = t ∧
    applyFetchError e msg t = t ∧
    (applyResponse (goToNextPage s).requestEpoch p1
      (applyResponse (goToFirstPage (goToNextPage s)).requestEpoch p2
        (goToFirstPage (goToNextPage s)))).data = some p2.items := by
  refine ⟨applyResponse_stale e q t he, applyFetchError_stale e msg t he, ?_⟩
  obtain ⟨p, hl, hm⟩ := lastPage_of_hasNext s hn
  rw [goToNextPage_eq s hf hl hm]
  simp only [goToFirstPage, applyResponse]
  simp

/-- Page-1 response used by the C1 witness: it has a next page. -/
def c1PageOne : Page Nat :=
  { items := [1, 2]
    next_cursor := some "c2"
    prev_cursor := none
    has_more := true
    has_previous := false
    total_estimate := 4 }

/-- Controller state used by the C1 witness: page 1 loaded, no fetch
in flight. -/
def c1State : CtrlState Nat Unit :=
  { cursorStack := [none]
    currentCursor := none
    limit := 2
    filters := ()
    requestEpoch := 0
    data := some [1, 2]
    lastPage := some c1PageOne
    error := none
    inFlight := false }

/-- Stale page-2 response used by the C1 witness (captured epoch E1). -/
def c1PageNext : Page Nat :=
  { items := [3, 4]
    next_cursor := none
    prev_cursor := some "c1"
    has_more := false
    has_previous := true
    total_estimate := 4 }

/-- Fresh first-page response used by the C1 witness (captured epoch
E2). -/
def c1PageFresh : Page Nat :=
  { items := [1, 2]
    next_cursor := some "c2"
    prev_cursor := none
    has_more := true
    has_previous := false
    total_estimate := 4 }

/-- C1 witness: on a concrete controller, the late E1 response is
discarded and the displayed data is the E2 result. -/
theorem c1_stale_response_suppression_witness :
    applyResponse 5 c1PageNext c1State = c1State ∧
    applyFetchError 5 "late failure" c1State = c1State ∧
    (applyResponse (goToNextPage c1State).requestEpoch c1PageNext
      (applyResponse (goToFirstPage (goToNextPage c1State)).requestEpoch c1PageFresh
        (goToFirstPage (goToNextPage c1State)))).data = some c1PageFresh.items :=
  c1_stale_response_suppression Nat Unit c1State c1State c1PageNext
    c1PageFresh c1PageNext 5 "late failure" (by decide) (by decide) (by decide)


/-! ## C2: page-index correctness -/

theorem stack_len_goToNextPage (s : CtrlState T F)
    (h : 1 ≤ s.cursorStack.length) :
    1 ≤ (goToNextPage s).cursorStack.length := by
  unfold goToNextPage
  split
  · exact h
  · split
    · split
      · simp
      · exact h
    · exact h

theorem stack_len_goToPreviousPage (s : CtrlState T F)
    (h : 1 ≤ s.cursorStack.length) :
    1 ≤ (goToPreviousPage s).cursorStack.length := by
  unfold goToPreviousPage
  split
  · rename_i h1
    simp only [List.length_tail]
    omega
  · exact h

theorem cursorStack_applyResponse (e : Nat) (p : Page T) (s : CtrlState T F) :
    (applyResponse e p s).cursorStack = s.cursorStack := by
  unfold applyResponse
  split <;> rfl

theorem cursorStack_applyFetchError (e : Nat) (msg : String)
    (s : CtrlState T F) :
    (applyFetchError e msg s).cursorStack = s.cursorStack := by
  unfold applyFetchError
  split <;> rfl

theorem setPageSize_ok (n : Nat) (s s1 : CtrlState T F)
    (h : setPageSize n s = Except.ok s1) :
    s1 = goToFirstPage { s with limit := n } := by
  unfold setPageSize at h
  split at h
  · cases h
  · injection h with h
    exact h.symm

theorem reachable_stack_nonempty {l0 : Nat} {f0 : F} {s : CtrlState T F}
    (h : Reachable T F l0 f0 s) : 1 ≤ s.cursorStack.length := by
  induction h with
  | init => simp [initState]
  | next _ ih => exact stack_len_goToNextPage _ ih
  | prev _ ih => exact stack_len_goToPreviousPage _ ih
  | first _ _ => simp [goToFirstPage]
  | filt _ _ => simp [setFilters, goToFirstPage]
  | size _ h _ => rw [setPageSize_ok _ _ _ h]; simp [goToFirstPage]
  | resp _ ih => rw [cursorStack_applyResponse]; exact ih
  | ferr _ ih => rw [cursorStack_applyFetchError]; exact ih

theorem nextStep_props (p : Page T) (s : CtrlState T F)
    (hf : s.inFlight = false) (hn : hasNextPage s = true) :
    currentPage (nextStep p s) = currentPage s + 1 ∧
    (nextStep p s).inFlight = false ∧
    (nextStep p s).lastPage = some p := by
  obtain ⟨q, hl, hm⟩ := lastPage_of_hasNext s hn
  unfold nextStep
  rw [goToNextPage_eq s hf hl hm]
  simp [applyResponse, currentPage]

theorem nextSteps_currentPage (ps : List (Page T)) :
    ∀ s : CtrlState T F, s.inFlight = false → hasNextPage s = true →
      (∀ p ∈ ps, p.has_more = true) →
      currentPage (nextSteps ps s) = currentPage s + ps.length := by
  induction ps with
  | nil =>
    intro s _ _ _
    simp [nextSteps]
  | cons p ps ih =>
    intro s hf hn hall
    obtain ⟨h1, h2, h3⟩ := nextStep_props p s hf hn
    have hm : p.has_more = true := hall p (by simp)
    have hn2 : hasNextPage (nextStep p s) = true := by
      simp [hasNextPage, h3, hm]
    have hrec := ih (nextStep p s) h2 hn2 (fun q hq => hall q (by simp [hq]))
    simp only [nextSteps, List.length_cons]
    omega

theorem prevSteps_back (n : Nat) :
    ∀ s : CtrlState T F, currentPage s = n + 1 →
      currentPage (prevSteps n s) = 1 ∧
      ∀ k, k < n → hasPreviousPage (prevSteps k s) = true := by
  induction n with
  | zero =>
    intro s h
    refine ⟨by simpa [prevSteps] using h, ?_⟩
    intro k hk
    omega
  | succ n ih =>
    intro s h
    have h2 : s.cursorStack.length = n + 2 := by
      simpa [currentPage] using h
    have hgt : 1 < s.cursorStack.length := by omega
    have hprev : currentPage (goToPreviousPage s) = n + 1 := by
      simp only [goToPreviousPage, if_pos hgt, currentPage, List.length_tail]
      omega
    obtain ⟨ih1, ih2⟩ := ih (goToPreviousPage s) hprev
    refine ⟨by simpa [prevSteps] using ih1, ?_⟩
    intro k hk
    cases k with
    | zero =>
      simp only [prevSteps, hasPreviousPage, currentPage, h2]
      simp
    | succ k =>
      have : k < n := by omega
      simpa [prevSteps] using ih2 k this

/-- C2: in every reachable state, `currentPage ≥ 1`, `currentPage`
equals `cursorStack.length`, and `hasPreviousPage` holds iff
`currentPage > 1`; N consecutive successful `goToNextPage()` calls add
N to the page index, and from page N+1, N `goToPreviousPage()` calls
return to page 1 with `hasPreviousPage` true before each step. -/
theorem c2_page_index_correct (T F : Type) (l0 : Nat) (f0 : F)
    (s s2 s3 : CtrlState T F) (ps : List (Page T)) (n k : Nat)
    (hr : Reachable T F l0 f0 s)
    (hf : s2.inFlight = false) (hn : hasNextPage s2 = true)
    (hall : ∀ p ∈ ps, p.has_more = true)
    (h3 : currentPage s3 = n + 1) (hk : k < n) :
    1 ≤ currentPage s ∧
    currentPage s = s.cursorStack.length ∧
    (hasPreviousPage s = true ↔ 1 < currentPage s) ∧
    currentPage (nextSteps ps s2) = currentPage s2 + ps.length ∧
    currentPage (prevSteps n s3) = 1 ∧
    hasPreviousPage (prevSteps k s3) = true := by
  obtain ⟨hb, hbk⟩ := prevSteps_back n s3 h3
  refine ⟨reachable_stack_nonempty hr, rfl, ?_, ?_, hb, hbk k hk⟩
  · simp [hasPreviousPage]
  · exact nextSteps_currentPage ps s2 hf hn hall

/-- Page used by the C2 witness forward steps: it keeps `has_more`. -/
def c2Page : Page Nat :=
  { items := [1]
    next_cursor := some "k"
    prev_cursor := none
    has_more := true
    has_previous := false
    total_estimate := 9 }

/-- Page-1 state used by the C2 witness: the initial response applied
to a freshly mounted controller. -/
def c2Start : CtrlState Nat Unit :=
  applyResponse 0 c2Page (initState 20 ())

/-- Page-3 state used by the C2 witness backward steps. -/
def c2Deep : CtrlState Nat Unit :=
  { cursorStack := [some "b", some "a", none]
    currentCursor := some "b"
    limit := 20
    filters := ()
    requestEpoch := 0
    data := none
    lastPage := none
    error := none
    inFlight := false }

/-- C2 witness: the invariants at the initial state, two successful
forward steps from page 1 landing on page 3, and two backward steps
from page 3 landing on page 1. -/
theorem c2_page_index_correct_witness :
    1 ≤ currentPage (initState 20 () : CtrlState Nat Unit) ∧
    currentPage (initState 20 () : CtrlState Nat Unit) =
      (initState 20 () : CtrlState Nat Unit).cursorStack.length ∧
    (hasPreviousPage (initState 20 () : CtrlState Nat Unit) = true ↔
      1 < currentPage (initState 20 () : CtrlState Nat Unit)) ∧
    currentPage (nextSteps [c2Page, c2Page] c2Start) =
      currentPage c2Start + [c2Page, c2Page].length ∧
    currentPage (prevSteps 2 c2Deep) = 1 ∧
    hasPreviousPage (prevSteps 1 c2Deep) = true :=
  c2_page_index_correct Nat Unit 20 () (initState 20 ()) c2Start c2Deep
    [c2Page, c2Page] 2 1 Reachable.init (by decide) (by decide)
    (by decide) (by decide) (by decide)

/-! ## C7: item-range arithmetic -/

/-- Page-1 response of the C7 scenario: 20 items, more available. -/
def c7PageOne : Page Nat :=
  { items := List.range 20
    next_cursor := some "a"
    prev_cursor := none
    has_more := true
    has_previous := false
    total_estimate := 55 }

/-- Page-2 response of the C7 scenario: 20 items, more available. -/
def c7PageTwo : Page Nat :=
  { items := List.range 20
    next_cursor := some "b"
    prev_cursor := some ""
    has_more := true
    has_previous := true
    total_estimate := 55 }

/-- Page-3 response of the C7 scenario: the last 15 of 55 items. -/
def c7PageThree : Page Nat :=
  { items := List.range 15
    next_cursor := none
    prev_cursor := some "a"
    has_more := false
    has_previous := true
    total_estimate := 55 }

/-- The C7 scenario state: limit 20, two successful forward steps from
the loaded first page, so page 3 holding 15 items is displayed. -/
def pageThreeState : CtrlState Nat Unit :=
  nextSteps [c7PageTwo, c7PageThree]
    (applyResponse 0 c7PageOne (initState 20 ()))

/-- C7: for every state with a successfully loaded page,
`startItem = (currentPage - 1) * limit + 1` and
`endItem = startItem + items.length - 1`, with `startItem = 1` on page
1; with limit 20 on page 3 holding 15 items, `startItem = 41` and
`endItem = 55`. -/
theorem c7_item_range (T F : Type) (s t : CtrlState T F) (items : List T)
    (hd : s.data = some items) (h1 : currentPage t = 1) :
    startItem s = (currentPage s - 1) * s.limit + 1 ∧
    endItem s = startItem s + items.length - 1 ∧
    startItem t = 1 ∧
    currentPage pageThreeState = 3 ∧
    pageThreeState.limit = 20 ∧
    pageThreeState.data = some (List.range 15) ∧
    startItem pageThreeState = 41 ∧
    endItem pageThreeState = 55 := by
  refine ⟨rfl, ?_, ?_, by decide, by decide, by decide, by decide, by decide⟩
  · simp [endItem, hd]
  · simp [startItem, h1]

/-- C7 witness: the formulas instantiated at the concrete page-3
scenario state and at a freshly mounted controller. -/
theorem c7_item_range_witness :
    startItem pageThreeState =
      (currentPage pageThreeState - 1) * pageThreeState.limit + 1 ∧
    endItem pageThreeState = startItem pageThreeState + (List.range 15).length - 1 ∧
    startItem (initState 20 () : CtrlState Nat Unit) = 1 ∧
    currentPage pageThreeState = 3 ∧
    pageThreeState.limit = 20 ∧
    pageThreeState.data = some (List.range 15) ∧
    startItem pageThreeState = 41 ∧
    endItem pageThreeState = 55 :=
  c7_item_range Nat Unit pageThreeState (initState 20 ()) (List.range 15)
    (by decide) (by decide)

/-! ## C4: backward-replay round trip -/

/-- The first page served by a deterministic adapter `fetch`. -/
def pageOneOf (fetch : Option String → Page T) : Page T :=
  fetch none

/-- The second page served by `fetch`, reached through the first
page's `next_cursor`. -/
def pageTwoOf (fetch : Option String → Page T) : Page T :=
  fetch (pageOneOf fetch).next_cursor

/-- The third page served by `fetch`, reached through the second
page's `next_cursor`. -/
def pageThreeOf (fetch : Option String → Page T) : Page T :=
  fetch (pageTwoOf fetch).next_cursor

/-- Controller state after mounting and navigating forward to page 2
against the deterministic adapter `fetch`. -/
def visitTwo (fetch : Option String → Page T) (l : Nat) (f : F) :
    CtrlState T F :=
  nextStep (pageTwoOf fetch) (applyResponse 0 (pageOneOf fetch) (initState l f))

/-- Controller state after navigating forward to page 3. -/
def visitThree (fetch : Option String → Page T) (l : Nat) (f : F) :
    CtrlState T F :=
  nextStep (pageThreeOf fetch) (visitTwo fetch l f)

/-- Controller state after navigating back once from page 3 and
resolving the re-request of the cursor now at the top of the stack
against the same deterministic adapter. -/
def backOnce (fetch : Option String → Page T) (l : Nat) (f : F) :
    CtrlState T F :=
  applyResponse (goToPreviousPage (visitThree fetch l f)).requestEpoch
    (fetch (goToPreviousPage (visitThree fetch l f)).currentCursor)
    (goToPreviousPage (visitThree fetch l f))

/-- C4: `goToPreviousPage()` pops the stack and re-requests the cursor
now at the top (client history, independent of the server's
`prev_cursor`); after visiting pages 1 → 2 → 3 and going back once
against a deterministic adapter, the displayed page-2 data is
identical to the originally displayed page-2 data, and the cache key
of the backward request equals the cache key of the original forward
page-2 request, so a still-cached result is reused without a new
network call. -/
theorem c4_backward_replay (T F : Type) (fetch : Option String → Page T)
    (l : Nat) (f : F) (u : CtrlState T F)
    (h1 : (pageOneOf fetch).has_more = true)
    (h2 : (pageTwoOf fetch).has_more = true)
    (hu : 1 < u.cursorStack.length) :
    (goToPreviousPage u).cursorStack = u.cursorStack.tail ∧
    (goToPreviousPage u).currentCursor = u.cursorStack.tail.headD none ∧
    (goToPreviousPage (visitThree fetch l f)).currentCursor =
      (pageOneOf fetch).next_cursor ∧
    cacheKey (goToPreviousPage (visitThree fetch l f)) =
      cacheKey (goToNextPage (applyResponse 0 (pageOneOf fetch) (initState l f))) ∧
    (backOnce fetch l f).data = (visitTwo fetch l f).data ∧
    (backOnce fetch l f).data = some (pageTwoOf fetch).items := by
  have hA : applyResponse 0 (pageOneOf fetch) (initState l f) =
      (⟨[none], none, l, f, 0, some (pageOneOf fetch).items,
        some (pageOneOf fetch), none, false⟩ : CtrlState T F) := rfl
  have hB : visitTwo fetch l f =
      (⟨[(pageOneOf fetch).next_cursor, none], (pageOneOf fetch).next_cursor,
        l, f, 1, some (pageTwoOf fetch).items, some (pageTwoOf fetch),
        none, false⟩ : CtrlState T F) := by
    unfold visitTwo nextStep
    rw [hA]
    simp [goToNextPage, applyResponse, h1]
  have hC : visitThree fetch l f =
      (⟨[(pageTwoOf fetch).next_cursor, (pageOneOf fetch).next_cursor, none],
        (pageTwoOf fetch).next_cursor, l, f, 2,
        some (pageThreeOf fetch).items, some (pageThreeOf fetch),
        none, false⟩ : CtrlState T F) := by
    unfold visitThree nextStep
    rw [hB]
    simp [goToNextPage, applyResponse, h2]
  have hD : goToPreviousPage (visitThree fetch l f) =
      (⟨[(pageOneOf fetch).next_cursor, none], (pageOneOf fetch).next_cursor,
        l, f, 3, some (pageThreeOf fetch).items, some (pageThreeOf fetch),
        none, true⟩ : CtrlState T F) := by
    rw [hC]
    simp [goToPreviousPage]
  refine ⟨?_, ?_, ?_, ?_, ?_, ?_⟩
  · simp [goToPreviousPage, hu]
  · simp [goToPreviousPage, hu]
  · rw [hD]
  · rw [hD, hA]
    simp [goToNextPage, cacheKey, h1]
  · unfold backOnce
    rw [hD, hB]
    simp [applyResponse, pageTwoOf]
  · unfold backOnce
    rw [hD]
    simp [applyResponse, pageTwoOf]

/-- Deterministic adapter used by the C4 witness: three pages chained
by cursors `c2` and `c3`; the third page carries a bogus `prev_cursor`
to show backward navigation ignores it. -/
def c4Fetch : Option String → Page Nat
  | none =>
    { items := [1, 2]
      next_cursor := some "c2"
      prev_cursor := none
      has_more := true
      has_previous := false
      total_estimate := 6 }
  | some "c2" =>
    { items := [3, 4]
      next_cursor := some "c3"
      prev_cursor := some ""
      has_more := true
      has_previous := true
      total_estimate := 6 }
  | some _ =>
    { items := [5, 6]
      next_cursor := none
      prev_cursor := some "bogus"
      has_more := false
      has_previous := true
      total_estimate := 6 }

/-- A page-2 state used by the C4 witness for the pop conjuncts. -/
def c4Deep : CtrlState Nat Unit :=
  { cursorStack := [some "c2", none]
    currentCursor := some "c2"
    limit := 2
    filters := ()
    requestEpoch := 1
    data := some [3, 4]
    lastPage := none
    error := none
    inFlight := false }

/-- C4 witness: against the concrete deterministic adapter, going
back from page 3 replays the stacked page-2 cursor, reuses the
original cache key, and displays the original page-2 data. -/
theorem c4_backward_replay_witness :
    (goToPreviousPage c4Deep).cursorStack = c4Deep.cursorStack.tail ∧
    (goToPreviousPage c4Deep).currentCursor = c4Deep.cursorStack.tail.headD none ∧
    (goToPreviousPage (visitThree c4Fetch 2 ())).currentCursor =
      (pageOneOf c4Fetch).next_cursor ∧
    cacheKey (goToPreviousPage (visitThree c4Fetch 2 ())) =
      cacheKey (goToNextPage (applyResponse 0 (pageOneOf c4Fetch) (initState 2 ()))) ∧
    (backOnce c4Fetch 2 ()).data = (visitTwo c4Fetch 2 ()).data ∧
    (backOnce c4Fetch 2 ()).data = some (pageTwoOf c4Fetch).items :=
  c4_backward_replay Nat Unit c4Fetch 2 () c4Deep (by decide) (by decide)
    (by decide)

end Pagination
